import Mathlib

set_option maxHeartbeats 1000000

/-!
Verification of the gluten memory-pool accounting layer
(cpp/velox/memory/VeloxMemoryPool.cc).

The file shallowly embeds the Accounting Bridge (class VeloxMemoryAllocator),
the pool node configuration inheritance (VeloxMemoryPool::genChild and
setAllocatorShared), the kind-gating macro CHECK_POOL_MANAGEMENT_OP, the
high-usage threshold callback installed on the root pool, and the
defaultLeafVeloxMemoryPool / asAggregateVeloxMemoryPool entry points.

External collaborators are modelled by their contracts: the external
reservation ledger (gluten MemoryAllocator, declared outside this translation
unit) is an oracle deciding each request plus a running balance, and the velox
Allocation Backend is modelled from the spec contract (it invokes the
reservation callback with the byte equivalent of the requested pages before
committing, aborts with nothing committed when the callback faults, and
unwinds via a post-allocation callback when it cannot physically satisfy a
request). Every operation additionally returns the list of observable events
in the order the source performs them, so ordering claims are statements
about concrete lists.
-/

namespace GlutenSpec

/-- Observable events of the Accounting Bridge, in source order. -/
inductive Ev
  | ledgerReserve (bytes : Int) (ok : Bool)
  | ledgerUnreserve (bytes : Int) (ok : Bool)
  | ledgerAllocAligned (alignment bytes : Nat) (ok : Bool)
  | ledgerFree (bytes : Nat) (ok : Bool)
  | origCB (bytes : Int) (preAlloc : Bool)
  | backendCommit (pages : Nat)
  | backendFreeNonContiguous (bytes : Int)
  | backendFreeContiguous (bytes : Int)
  deriving DecidableEq, Repr

/-- True exactly on the events that denote a call into the velox allocation
backend (as opposed to the external ledger or the original callback). -/
def Ev.isBackendEvent : Ev → Bool
  | .backendCommit _ => true
  | .backendFreeNonContiguous _ => true
  | .backendFreeContiguous _ => true
  | _ => false

/-- Modelled from the spec: the external reservation ledger contract (the
gluten MemoryAllocator passed into the bridge; its class is declared outside
this translation unit). Each primitive answers per an arbitrary oracle field;
a successful reserve adds to the balance, a successful unreserve subtracts. -/
structure GlutenMemoryAllocator where
  reserveOk : Int → Bool
  unreserveOk : Int → Bool
  allocateAlignedOk : Nat → Nat → Bool
  freeOk : Nat → Bool
  reservedBytes : Int

/-- Ledger primitive reserveBytes(n) -> bool. -/
def GlutenMemoryAllocator.reserveBytes (g : GlutenMemoryAllocator) (n : Int) :
    Bool × GlutenMemoryAllocator :=
  if g.reserveOk n then (true, { g with reservedBytes := g.reservedBytes + n })
  else (false, g)

/-- Ledger primitive unreserveBytes(n) -> bool. -/
def GlutenMemoryAllocator.unreserveBytes (g : GlutenMemoryAllocator) (n : Int) :
    Bool × GlutenMemoryAllocator :=
  if g.unreserveOk n then (true, { g with reservedBytes := g.reservedBytes - n })
  else (false, g)

/-- Result of running the reservation callback the bridge builds: whether the
VELOX_CHECK inside it faulted, the ledger afterwards, and the events. -/
structure CBOut where
  fault : Bool
  ledger : GlutenMemoryAllocator
  events : List Ev

/-- Embedding of the reservation-callback lambda the bridge passes to the
backend (VeloxMemoryPool.cc lines 61-65, and the identical lambda at lines
81-85): on preAlloc it calls reserveBytes, otherwise unreserveBytes; a false
answer trips VELOX_CHECK (fault) before the original callback runs; on
success the original callback is invoked with the same bytes and flag. -/
def wrappedReservationCB (g : GlutenMemoryAllocator) (allocBytes : Int)
    (preAlloc : Bool) : CBOut :=
  let r := if preAlloc then g.reserveBytes allocBytes else g.unreserveBytes allocBytes
  let ev := if preAlloc then Ev.ledgerReserve allocBytes r.1
            else Ev.ledgerUnreserve allocBytes r.1
  if r.1 then
    { fault := false, ledger := r.2, events := [ev, Ev.origCB allocBytes preAlloc] }
  else
    { fault := true, ledger := r.2, events := [ev] }

/-- Modelled from the spec: the Allocation Backend (the wrapped velox
MemoryAllocator, an external collaborator). bytesForPages gives the byte
equivalent it reports for a page count, physOk whether it can physically
satisfy the request, committedPages the pages currently committed. -/
structure VeloxBackend where
  bytesForPages : Nat → Int
  physOk : Bool
  committedPages : Nat

/-- Result of a page-level allocation through the bridge: none means the
operation faulted (exception), some b that it returned b. -/
structure AllocOut where
  result : Option Bool
  ledger : GlutenMemoryAllocator
  backend : VeloxBackend
  events : List Ev

/-- Embedding of VeloxMemoryAllocator::allocateNonContiguous (lines 53-67)
composed with the spec-modelled backend behaviour: the backend first runs the
wrapped callback pre-allocation; a fault aborts with no pages committed; else
the backend commits the pages when it can, and otherwise runs the wrapped
callback post-allocation to unwind the reservation and returns false. -/
def allocateNonContiguous (g : GlutenMemoryAllocator) (b : VeloxBackend)
    (numPages : Nat) : AllocOut :=
  let bytes := b.bytesForPages numPages
  let pre := wrappedReservationCB g bytes true
  if pre.fault then
    { result := none, ledger := pre.ledger, backend := b, events := pre.events }
  else if b.physOk then
    { result := some true, ledger := pre.ledger,
      backend := { b with committedPages := b.committedPages + numPages },
      events := pre.events ++ [Ev.backendCommit numPages] }
  else
    let post := wrappedReservationCB pre.ledger bytes false
    { result := if post.fault then none else some false,
      ledger := post.ledger, backend := b, events := pre.events ++ post.events }

/-- Embedding of VeloxMemoryAllocator::allocateContiguous (lines 75-86); the
wrapped callback is the same lambda, and the backend contract is the same as
the non-contiguous case. -/
def allocateContiguous (g : GlutenMemoryAllocator) (b : VeloxBackend)
    (numPages : Nat) : AllocOut :=
  let bytes := b.bytesForPages numPages
  let pre := wrappedReservationCB g bytes true
  if pre.fault then
    { result := none, ledger := pre.ledger, backend := b, events := pre.events }
  else if b.physOk then
    { result := some true, ledger := pre.ledger,
      backend := { b with committedPages := b.committedPages + numPages },
      events := pre.events ++ [Ev.backendCommit numPages] }
  else
    let post := wrappedReservationCB pre.ledger bytes false
    { result := if post.fault then none else some false,
      ledger := post.ledger, backend := b, events := pre.events ++ post.events }

/-- An outstanding allocation handed back for freeing: the byte size the
backend reports for it and its page count. -/
structure Allocation where
  sizeBytes : Int
  pages : Nat

/-- Result of a free through the bridge. fault mirrors whether a VELOX_CHECK
in the source path fired. -/
structure FreeOut where
  freedBytes : Int
  fault : Bool
  ledger : GlutenMemoryAllocator
  backend : VeloxBackend
  events : List Ev

/-- Embedding of VeloxMemoryAllocator::freeNonContiguous (lines 69-73): the
backend free runs first and reports the freed bytes, then unreserveBytes is
called on the ledger with that count and its boolean result is discarded
(the source performs no check here, so the operation never faults); the
backend-reported count is returned. -/
def freeNonContiguous (g : GlutenMemoryAllocator) (b : VeloxBackend)
    (a : Allocation) : FreeOut :=
  let freedBytes := a.sizeBytes
  let b2 : VeloxBackend := { b with committedPages := b.committedPages - a.pages }
  let r := g.unreserveBytes freedBytes
  { freedBytes := freedBytes, fault := false, ledger := r.2, backend := b2,
    events := [Ev.backendFreeNonContiguous freedBytes,
               Ev.ledgerUnreserve freedBytes r.1] }

/-- Embedding of VeloxMemoryAllocator::freeContiguous (lines 88-92): the byte
count is taken from allocation.size(), the ledger unreserveBytes runs FIRST
with its boolean result discarded, and only then does the backend free run;
no check, so the operation never faults. -/
def freeContiguous (g : GlutenMemoryAllocator) (b : VeloxBackend)
    (a : Allocation) : FreeOut :=
  let bytesToFree := a.sizeBytes
  let r := g.unreserveBytes bytesToFree
  let b2 : VeloxBackend := { b with committedPages := b.committedPages - a.pages }
  { freedBytes := bytesToFree, fault := false, ledger := r.2, backend := b2,
    events := [Ev.ledgerUnreserve bytesToFree r.1,
               Ev.backendFreeContiguous bytesToFree] }

/-- Result of a raw byte operation on the bridge: ok = false means the
VELOX_CHECK guarding the ledger call fired (no pointer is returned; for
freeBytes, which is noexcept, the fault is fatal to the process). -/
structure RawOut where
  ok : Bool
  ledger : GlutenMemoryAllocator
  backend : VeloxBackend
  events : List Ev

/-- Embedding of VeloxMemoryAllocator::allocateBytes (lines 94-98): the body
calls only glutenAlloc_.allocateAligned(alignment, bytes, out) under a
VELOX_CHECK and never touches veloxAlloc_. -/
def allocateBytes (g : GlutenMemoryAllocator) (b : VeloxBackend)
    (bytes alignment : Nat) : RawOut :=
  let ok := g.allocateAlignedOk alignment bytes
  { ok := ok, ledger := g, backend := b,
    events := [Ev.ledgerAllocAligned alignment bytes ok] }

/-- Embedding of VeloxMemoryAllocator::freeBytes (lines 100-102): the body
calls only glutenAlloc_.free(p, size) under a VELOX_CHECK and never touches
veloxAlloc_. -/
def freeBytes (g : GlutenMemoryAllocator) (b : VeloxBackend) (size : Nat) :
    RawOut :=
  let ok := g.freeOk size
  { ok := ok, ledger := g, backend := b, events := [Ev.ledgerFree size ok] }

/-- Concrete ledger refusing every request (balance 0). -/
def ledgerDenyAll : GlutenMemoryAllocator :=
  { reserveOk := fun _ => false, unreserveOk := fun _ => false,
    allocateAlignedOk := fun _ _ => false, freeOk := fun _ => false,
    reservedBytes := 0 }

/-- Concrete ledger accepting every request (balance 0). -/
def ledgerAcceptAll : GlutenMemoryAllocator :=
  { reserveOk := fun _ => true, unreserveOk := fun _ => true,
    allocateAlignedOk := fun _ _ => true, freeOk := fun _ => true,
    reservedBytes := 0 }

/-- Concrete backend: 4096 bytes per page, physically able, nothing committed. -/
def backend4k : VeloxBackend :=
  { bytesForPages := fun p => 4096 * (p : Int), physOk := true, committedPages := 0 }

/-- Concrete backend that cannot physically satisfy requests. -/
def backendExhausted : VeloxBackend :=
  { bytesForPages := fun p => 4096 * (p : Int), physOk := false, committedPages := 0 }

/-- Concrete outstanding allocation of 64 bytes on one page. -/
def alloc64 : Allocation := { sizeBytes := 64, pages := 1 }

/-- Embedding of the high-usage callback registered on the root pool
(lines 182-183): it reports true exactly when the pool reservedBytes are at
least the configured spill threshold. The callback is stateless: each
evaluation looks only at the current reservedBytes value. -/
def highUsageCallback (spillThreshold reservedBytes : Int) : Bool :=
  decide (reservedBytes ≥ spillThreshold)

/-- Pool kinds of the velox memory-pool hierarchy. -/
inductive PoolKind
  | kLeaf
  | kAggregate
  deriving DecidableEq, Repr

/-- Embedding of the macro CHECK_POOL_MANAGEMENT_OP (lines 29-34): when the
kind of the node is not kAggregate, VELOX_FAIL raises an error whose message
interpolates the operation name and the node toString; otherwise the guarded
operation proceeds. -/
def checkPoolManagementOp (kind : PoolKind) (opName poolToStr : String) :
    Except String Unit :=
  if kind ≠ PoolKind.kAggregate then
    Except.error ("Memory pool " ++ opName ++
      " operation is only allowed on aggregation memory pool: " ++ poolToStr)
  else Except.ok ()

/-- Configuration-relevant state of a VeloxMemoryPool node. Allocator
instances are identified by a Nat id; allocator is the raw backend pointer
currently set (none = the manager default), sharedAlloc the shared-ownership
reference the pool additionally keeps alive (member sharedAlloc_, line 168). -/
structure VeloxMemoryPool where
  name : String
  kind : PoolKind
  alignment : Nat
  trackUsage : Bool
  threadSafe : Bool
  checkUsageLeak : Bool
  allocator : Option Nat
  sharedAlloc : Option Nat
  deriving DecidableEq, Repr

/-- Embedding of VeloxMemoryPool::setAllocatorShared (lines 137-140): sets the
raw allocator to the shared instance and stores the shared reference. -/
def setAllocatorShared (p : VeloxMemoryPool) (sharedRef : Nat) : VeloxMemoryPool :=
  { p with allocator := some sharedRef, sharedAlloc := some sharedRef }

/-- Embedding of VeloxMemoryPool::genChild (lines 143-165): the child is
built with Options taking alignment, trackUsage and checkUsageLeak from the
parent (threadSafe comes from the call argument), and when the parent holds a
shared allocator the child gets the very same instance via
setAllocatorShared. -/
def genChild (parent : VeloxMemoryPool) (childName : String) (kind : PoolKind)
    (threadSafe : Bool) : VeloxMemoryPool :=
  let child : VeloxMemoryPool :=
    { name := childName, kind := kind,
      alignment := parent.alignment,
      trackUsage := parent.trackUsage,
      threadSafe := threadSafe,
      checkUsageLeak := parent.checkUsageLeak,
      allocator := none,
      sharedAlloc := none }
  match parent.sharedAlloc with
  | some a => setAllocatorShared child a
  | none => child

/-- Handle to a created leaf pool. -/
structure LeafHandle where
  id : Nat
  name : String
  kind : PoolKind
  deriving DecidableEq, Repr

/-- Process-wide state relevant to defaultLeafVeloxMemoryPool: the next fresh
child id, the C++ function-local static holding the default pool once
initialized, and how many leaf children were ever created by it. -/
structure ProcessState where
  nextChildId : Nat
  defaultPool : Option LeafHandle
  leafChildrenCreated : Nat
  deriving DecidableEq, Repr

/-- Embedding of defaultLeafVeloxMemoryPool (lines 187-190): a function-local
static initialized on first call with rootVeloxMemoryPool().addLeafChild of
the name default_leaf, then returned unchanged on every later call. -/
def defaultLeafVeloxMemoryPool (s : ProcessState) : LeafHandle × ProcessState :=
  match s.defaultPool with
  | some h => (h, s)
  | none =>
    let h : LeafHandle :=
      { id := s.nextChildId, name := "default_leaf", kind := PoolKind.kLeaf }
    (h, { nextChildId := s.nextChildId + 1, defaultPool := some h,
          leafChildrenCreated := s.leafChildrenCreated + 1 })

/-- Modulus of the 32-bit counter used by asAggregateVeloxMemoryPool. -/
def uint32Mod : Nat := 4294967296

/-- Big-endian decimal digit characters of a Nat, the list underlying both
Nat.repr and std::to_string for values in range. -/
def decDigits (n : Nat) : List Char :=
  if _h : n < 10 then [Nat.digitChar n]
  else decDigits (n / 10) ++ [Nat.digitChar (n % 10)]
decreasing_by exact Nat.div_lt_self (by omega) (by omega)

/-- One step of decimal decoding: shift the accumulator and add the digit
value of the character. -/
def decStep (acc : Nat) (c : Char) : Nat := 10 * acc + (c.toNat - 48)

/-- Decimal decoding of a digit-character list, the inverse of decDigits. -/
def decodeDec (l : List Char) : Nat := l.foldl decStep 0

/-- Embedding of the generated child name at line 195: the literal
wrapped_root followed by std::to_string of the current counter value. -/
def wrappedRootName (idVal : Nat) : String := "wrapped_root" ++ Nat.repr idVal

/-- Aggregate child returned by asAggregateVeloxMemoryPool: its generated
name and the identity of the external ledger its bridge was bound to. -/
structure WrappedPool where
  name : String
  boundLedger : Nat
  deriving DecidableEq, Repr

/-- Process-wide state relevant to asAggregateVeloxMemoryPool: the value of
the static atomic uint32 counter (kept < 2 ^ 32) and the reservedBytes
balance of every external ledger, indexed by ledger identity. -/
structure WrapState where
  counter : Nat
  balances : Nat → Int

/-- Embedding of asAggregateVeloxMemoryPool (lines 192-201): reads the static
counter for the generated name, post-increments it with uint32 wraparound,
and binds a fresh VeloxMemoryAllocator bridge holding exactly the supplied
ledger to the new child via setAllocatorShared. -/
def asAggregateVeloxMemoryPool (s : WrapState) (ledger : Nat) :
    WrappedPool × WrapState :=
  ({ name := wrappedRootName s.counter, boundLedger := ledger },
   { s with counter := (s.counter + 1) % uint32Mod })

/-- Reservation mirrored through the bridge of a wrapped pool: the bridge
stores the ledger supplied at wrap time (member glutenAlloc_, bound at line
199) and its reservation callback reserves only on that ledger (line 62), so
in a world of many ledgers only the bound balance changes. -/
def reserveThroughWrapped (p : WrappedPool) (bytes : Int) (s : WrapState) :
    WrapState :=
  { s with balances := fun i =>
      if i = p.boundLedger then s.balances i + bytes else s.balances i }

/-- Value of the static counter after k calls in a fresh process (the counter
starts at 0 and each call post-increments with uint32 wraparound). -/
def counterAfterCalls : Nat → Nat
  | 0 => 0
  | k + 1 => (counterAfterCalls k + 1) % uint32Mod

/-- Concrete aggregate parent pool holding a shared allocator instance
(id 7). -/
def parentWithShared : VeloxMemoryPool :=
  { name := "agg", kind := PoolKind.kAggregate, alignment := 64,
    trackUsage := true, threadSafe := true, checkUsageLeak := true,
    allocator := some 7, sharedAlloc := some 7 }

/-- Fresh process state: no default pool yet. -/
def procState0 : ProcessState :=
  { nextChildId := 0, defaultPool := none, leafChildrenCreated := 0 }

/-- Fresh wrap state: counter 0 and every ledger balance 0. -/
def wrapState0 : WrapState := { counter := 0, balances := fun _ => 0 }

/-! Helper lemmas: the decimal rendering used by the generated pool names is
injective, and the wrapped counter evolves as reduction modulo 2 ^ 32. -/

theorem toDigitsCore_eq_decDigits (fuel : Nat) :
    ∀ (n : Nat) (ds : List Char), n < fuel →
      Nat.toDigitsCore 10 fuel n ds = decDigits n ++ ds := by
  induction fuel with
  | zero => intro n ds h; omega
  | succ f ih =>
    intro n ds h
    simp only [Nat.toDigitsCore]
    by_cases h10 : n / 10 = 0
    · have hn : n < 10 := by omega
      rw [if_pos h10, decDigits, dif_pos hn, Nat.mod_eq_of_lt hn]
      rfl
    · have hn : ¬ n < 10 := fun hc => h10 (Nat.div_eq_of_lt hc)
      have hlt : n / 10 < f := by
        have : n / 10 < n := Nat.div_lt_self (by omega) (by omega)
        omega
      rw [if_neg h10, ih (n / 10) _ hlt]
      conv_rhs => rw [decDigits]
      rw [dif_neg hn, List.append_assoc]
      rfl

theorem repr_eq_decDigits (n : Nat) : Nat.repr n = (decDigits n).asString := by
  unfold Nat.repr Nat.toDigits
  rw [toDigitsCore_eq_decDigits (n + 1) n [] (by omega), List.append_nil]

theorem digitChar_decode (d : Nat) (h : d < 10) :
    (Nat.digitChar d).toNat - 48 = d := by
  interval_cases d <;> decide

theorem decDigits_foldl (n : Nat) :
    ∀ a : Nat, List.foldl decStep a (decDigits n) =
      a * 10 ^ (decDigits n).length + n := by
  induction n using Nat.strong_induction_on with
  | _ n ih =>
    intro a
    by_cases h : n < 10
    · rw [decDigits, dif_pos h]
      simp only [List.foldl_cons, List.foldl_nil, decStep, digitChar_decode n h,
        List.length_cons, List.length_nil, pow_one, zero_add]
      ring
    · have hdiv : n / 10 < n := Nat.div_lt_self (by omega) (by omega)
      have hdm : 10 * (n / 10) + n % 10 = n := Nat.div_add_mod n 10
      rw [decDigits, dif_neg h, List.foldl_append, ih (n / 10) hdiv a]
      simp only [List.foldl_cons, List.foldl_nil, decStep,
        digitChar_decode (n % 10) (Nat.mod_lt n (by omega)),
        List.length_append, List.length_cons, List.length_nil, zero_add,
        pow_succ]
      rw [Nat.mul_add, Nat.add_assoc, hdm]
      ring

theorem decodeDec_decDigits (n : Nat) : decodeDec (decDigits n) = n := by
  have h := decDigits_foldl n 0
  simpa [decodeDec] using h

theorem decDigits_injective {m n : Nat} (h : decDigits m = decDigits n) :
    m = n := by
  have h2 := congrArg decodeDec h
  rwa [decodeDec_decDigits, decodeDec_decDigits] at h2

theorem natRepr_injective {m n : Nat} (h : Nat.repr m = Nat.repr n) : m = n := by
  rw [repr_eq_decDigits, repr_eq_decDigits] at h
  apply decDigits_injective
  have h2 := congrArg String.data h
  simpa [List.asString] using h2

theorem wrappedRootName_injective {m n : Nat}
    (h : wrappedRootName m = wrappedRootName n) : m = n := by
  apply natRepr_injective
  apply String.ext
  have h2 := congrArg String.data h
  rw [wrappedRootName, wrappedRootName, String.data_append,
    String.data_append] at h2
  exact List.append_cancel_left h2

theorem counterAfterCalls_eq (k : Nat) : counterAfterCalls k = k % uint32Mod := by
  induction k with
  | zero => rfl
  | succ k ih =>
    rw [counterAfterCalls, ih, uint32Mod]
    omega

/-! Claim theorems. -/

/-- C1: page-level allocation through the Accounting Bridge
(allocateNonContiguous and allocateContiguous) reserves the byte equivalent
on the external ledger before the backend commits pages: when the ledger
refuses, the whole allocation fails (the check faults) and no pages are
committed (the committed page count is unchanged and no commit event
occurs); when the ledger accepts, the backend proceeds and, being able to
satisfy the request, grants exactly the requested pages and returns success,
with the ledger balance increased by the byte equivalent. -/
theorem bridge_page_alloc_gates_on_ledger
    (g : GlutenMemoryAllocator) (b : VeloxBackend) (numPages : Nat) :
    (g.reserveOk (b.bytesForPages numPages) = false →
      (allocateNonContiguous g b numPages).result = none ∧
      (allocateNonContiguous g b numPages).backend.committedPages =
        b.committedPages ∧
      Ev.backendCommit numPages ∉ (allocateNonContiguous g b numPages).events ∧
      (allocateContiguous g b numPages).result = none ∧
      (allocateContiguous g b numPages).backend.committedPages =
        b.committedPages ∧
      Ev.backendCommit numPages ∉ (allocateContiguous g b numPages).events) ∧
    (g.reserveOk (b.bytesForPages numPages) = true → b.physOk = true →
      (allocateNonContiguous g b numPages).result = some true ∧
      (allocateNonContiguous g b numPages).backend.committedPages =
        b.committedPages + numPages ∧
      (allocateNonContiguous g b numPages).ledger.reservedBytes =
        g.reservedBytes + b.bytesForPages numPages ∧
      (allocateContiguous g b numPages).result = some true ∧
      (allocateContiguous g b numPages).backend.committedPages =
        b.committedPages + numPages ∧
      (allocateContiguous g b numPages).ledger.reservedBytes =
        g.reservedBytes + b.bytesForPages numPages) := by
  constructor
  · intro h
    simp [allocateNonContiguous, allocateContiguous, wrappedReservationCB,
      GlutenMemoryAllocator.reserveBytes, h]
  · intro h hphys
    simp [allocateNonContiguous, allocateContiguous, wrappedReservationCB,
      GlutenMemoryAllocator.reserveBytes, h, hphys]

/-- Witness for C1: a denying ledger faults the allocation with nothing
committed; an accepting ledger lets the backend commit the pages. -/
theorem bridge_page_alloc_gates_on_ledger_witness :
    (allocateNonContiguous ledgerDenyAll backend4k 2).result = none ∧
    (allocateNonContiguous ledgerDenyAll backend4k 2).backend.committedPages = 0 ∧
    (allocateContiguous ledgerAcceptAll backend4k 2).result = some true ∧
    (allocateContiguous ledgerAcceptAll backend4k 2).backend.committedPages = 0 + 2 := by
  refine ⟨?_, ?_, ?_, ?_⟩
  · exact ((bridge_page_alloc_gates_on_ledger ledgerDenyAll backend4k 2).1 rfl).1
  · exact ((bridge_page_alloc_gates_on_ledger ledgerDenyAll backend4k 2).1 rfl).2.1
  · exact ((bridge_page_alloc_gates_on_ledger ledgerAcceptAll backend4k 2).2
      rfl rfl).2.2.2.1
  · exact ((bridge_page_alloc_gates_on_ledger ledgerAcceptAll backend4k 2).2
      rfl rfl).2.2.2.2.1

/-- C2 counterexample: for freeContiguous the source releases the ledger
BEFORE the backend free (lines 90-91): at this concrete input the event
order is the ledger release first and the backend free second, refuting the
claim that for every page-level free path the ledger release happens after
the backend has freed the pages. -/
theorem free_contiguous_release_precedes_backend_free :
    (freeContiguous ledgerAcceptAll backend4k alloc64).events =
      [Ev.ledgerUnreserve 64 true, Ev.backendFreeContiguous 64] ∧
    (freeContiguous ledgerAcceptAll backend4k alloc64).events ≠
      [Ev.backendFreeContiguous 64, Ev.ledgerUnreserve 64 true] := by
  decide

/-- C2 amended: freeNonContiguous frees through the backend first, then
releases exactly the backend-reported byte count on the ledger and returns
that count; freeContiguous releases exactly allocation.size() on the ledger
first and then performs the backend free of that same byte count; both
operations are unconditional (they never fault, even on a ledger refusal),
and an accepted release decreases the ledger balance by exactly the freed
bytes. -/
theorem bridge_free_paths_exact
    (g : GlutenMemoryAllocator) (b : VeloxBackend) (a : Allocation) :
    (freeNonContiguous g b a).freedBytes = a.sizeBytes ∧
    (freeNonContiguous g b a).fault = false ∧
    (freeNonContiguous g b a).events =
      [Ev.backendFreeNonContiguous a.sizeBytes,
       Ev.ledgerUnreserve a.sizeBytes (g.unreserveOk a.sizeBytes)] ∧
    (g.unreserveOk a.sizeBytes = true →
      (freeNonContiguous g b a).ledger.reservedBytes =
        g.reservedBytes - a.sizeBytes) ∧
    (freeContiguous g b a).fault = false ∧
    (freeContiguous g b a).events =
      [Ev.ledgerUnreserve a.sizeBytes (g.unreserveOk a.sizeBytes),
       Ev.backendFreeContiguous a.sizeBytes] ∧
    (g.unreserveOk a.sizeBytes = true →
      (freeContiguous g b a).ledger.reservedBytes =
        g.reservedBytes - a.sizeBytes) := by
  by_cases h : g.unreserveOk a.sizeBytes <;>
    simp [freeNonContiguous, freeContiguous,
      GlutenMemoryAllocator.unreserveBytes, h]

/-- Witness for C2 amended: freeing the concrete 64-byte allocation returns
64 and debits the accepting ledger by exactly 64. -/
theorem bridge_free_paths_exact_witness :
    (freeNonContiguous ledgerAcceptAll backend4k alloc64).freedBytes = 64 ∧
    (freeNonContiguous ledgerAcceptAll backend4k alloc64).ledger.reservedBytes =
      0 - 64 := by
  exact ⟨(bridge_free_paths_exact ledgerAcceptAll backend4k alloc64).1,
    (bridge_free_paths_exact ledgerAcceptAll backend4k alloc64).2.2.2.1 rfl⟩

/-- C3: the raw byte path goes only through the external ledger: the events
of allocateBytes and freeBytes are exactly one ledger primitive call each,
no backend event ever occurs, the backend state is untouched, and
allocateBytes faults (returns no pointer) exactly when the aligned
allocation on the ledger fails. -/
theorem raw_byte_path_ledger_only
    (g : GlutenMemoryAllocator) (b : VeloxBackend) (bytes alignment size : Nat) :
    (allocateBytes g b bytes alignment).events =
      [Ev.ledgerAllocAligned alignment bytes (g.allocateAlignedOk alignment bytes)] ∧
    (∀ e ∈ (allocateBytes g b bytes alignment).events,
      e.isBackendEvent = false) ∧
    (allocateBytes g b bytes alignment).backend.committedPages =
      b.committedPages ∧
    ((allocateBytes g b bytes alignment).ok = false ↔
      g.allocateAlignedOk alignment bytes = false) ∧
    (freeBytes g b size).events = [Ev.ledgerFree size (g.freeOk size)] ∧
    (∀ e ∈ (freeBytes g b size).events, e.isBackendEvent = false) ∧
    (freeBytes g b size).backend.committedPages = b.committedPages := by
  simp [allocateBytes, freeBytes, Ev.isBackendEvent]

/-- Witness for C3: the denying ledger makes allocateBytes fault, and the
single emitted event is not a backend call. -/
theorem raw_byte_path_ledger_only_witness :
    (Ev.ledgerAllocAligned 8 16 false).isBackendEvent = false ∧
    (allocateBytes ledgerDenyAll backend4k 16 8).ok = false := by
  refine ⟨?_, ?_⟩
  · exact (raw_byte_path_ledger_only ledgerDenyAll backend4k 16 8 32).2.1
      (Ev.ledgerAllocAligned 8 16 false) (by decide)
  · exact ((raw_byte_path_ledger_only ledgerDenyAll backend4k 16 8 32).2.2.2.1).mpr rfl

/-- C4 counterexample: with a ledger refusing every release,
freeNonContiguous at this concrete input completes without any fault and
still returns the freed byte count, the refusal (the false answer recorded
in the ledger event) being silently discarded; this refutes the claim that
every release path of the bridge treats a ledger refusal as a fatal
invariant violation. -/
theorem free_noncontiguous_ignores_ledger_refusal :
    (freeNonContiguous ledgerDenyAll backend4k alloc64).fault = false ∧
    (freeNonContiguous ledgerDenyAll backend4k alloc64).freedBytes = 64 ∧
    (freeNonContiguous ledgerDenyAll backend4k alloc64).events =
      [Ev.backendFreeNonContiguous 64, Ev.ledgerUnreserve 64 false] := by
  decide

/-- C4 amended: a refused release is treated as a fatal invariant violation
(faulting, never retried: the ledger is consulted exactly once) on the
checked release paths, namely freeBytes and the rollback release inside the
wrapped reservation callback (where the fault also suppresses the original
callback); freeNonContiguous and freeContiguous instead discard the refusal
and complete normally. -/
theorem ledger_refusal_fatal_on_checked_paths
    (g : GlutenMemoryAllocator) (b : VeloxBackend) (size : Nat) (bytes : Int)
    (a : Allocation) :
    (g.freeOk size = false → (freeBytes g b size).ok = false) ∧
    (g.unreserveOk bytes = false →
      (wrappedReservationCB g bytes false).fault = true ∧
      (wrappedReservationCB g bytes false).events =
        [Ev.ledgerUnreserve bytes false]) ∧
    (g.unreserveOk a.sizeBytes = false →
      (freeNonContiguous g b a).fault = false ∧
      (freeContiguous g b a).fault = false) := by
  refine ⟨fun h => by simp [freeBytes, h], fun h => ?_, fun h => ⟨rfl, rfl⟩⟩
  simp [wrappedReservationCB, GlutenMemoryAllocator.unreserveBytes, h]

/-- Witness for C4 amended: on the denying ledger freeBytes faults and the
rolling-back wrapped callback faults. -/
theorem ledger_refusal_fatal_on_checked_paths_witness :
    (freeBytes ledgerDenyAll backend4k 32).ok = false ∧
    (wrappedReservationCB ledgerDenyAll 64 false).fault = true := by
  exact ⟨(ledger_refusal_fatal_on_checked_paths ledgerDenyAll backend4k
      32 64 alloc64).1 rfl,
    ((ledger_refusal_fatal_on_checked_paths ledgerDenyAll backend4k
      32 64 alloc64).2.1 rfl).1⟩

/-- C5: the threshold callback registered on the root pool is true exactly
when reservedBytes have reached the spill threshold; with threshold 500 any
reserved value up to 499 reports not-crossed and any value from 500 up
reports crossed; being stateless, each evaluation depends only on the
current value, so the report stays crossed exactly while the value is at
least 500 and flips back once a release brings it below. -/
theorem threshold_callback_crossing (spillThreshold r : Int) :
    (highUsageCallback spillThreshold r = true ↔ r ≥ spillThreshold) ∧
    (r ≤ 499 → highUsageCallback 500 r = false) ∧
    (r ≥ 500 → highUsageCallback 500 r = true) := by
  refine ⟨by simp [highUsageCallback], fun h => ?_, fun h => ?_⟩ <;>
    simp [highUsageCallback] <;> omega

/-- Witness for C5: at 499 the callback reports not-crossed, at 500 crossed. -/
theorem threshold_callback_crossing_witness :
    highUsageCallback 500 499 = false ∧ highUsageCallback 500 500 = true := by
  exact ⟨(threshold_callback_crossing 500 499).2.1 (by decide),
    (threshold_callback_crossing 500 500).2.2 (by decide)⟩

/-- C6 counterexample: the static counter is a 32-bit atomic and wraps: in a
fresh process, the call numbered 4294967296 (2 ^ 32) sees the counter back
at the value the call numbered 0 saw, so the two calls generate the same
name even though they are distinct calls within one process; this refutes
the claim that any two calls within the process produce children with
distinct names. -/
theorem wrapped_name_wraps_at_uint32 :
    counterAfterCalls 4294967296 = counterAfterCalls 0 ∧
    wrappedRootName (counterAfterCalls 4294967296) =
      wrappedRootName (counterAfterCalls 0) ∧
    (4294967296 : Nat) ≠ 0 := by
  have h : counterAfterCalls 4294967296 = counterAfterCalls 0 := by
    rw [counterAfterCalls_eq, counterAfterCalls_eq, uint32Mod]
  exact ⟨h, by rw [h], by decide⟩

/-- C6 amended: generated names are distinct for any two calls whose call
numbers are incongruent modulo 2 ^ 32 (uniqueness holds up to the uint32
wraparound of the counter, not for arbitrarily many calls); each call
returns a fresh aggregate child named from the counter value at that call,
post-increments the counter, and binds the bridge to exactly the ledger
supplied to that call, so a reservation mirrored through the bridge of a
wrapped pool changes only the balance of its bound ledger and leaves every
other ledger untouched. -/
theorem wrapped_pools_distinct_names_and_isolated_ledgers
    (i j : Nat) (s : WrapState) (L : Nat) (p : WrappedPool) (bytes : Int)
    (k : Nat) :
    (i % uint32Mod ≠ j % uint32Mod →
      wrappedRootName (counterAfterCalls i) ≠
        wrappedRootName (counterAfterCalls j)) ∧
    (asAggregateVeloxMemoryPool s L).1.boundLedger = L ∧
    (asAggregateVeloxMemoryPool s L).1.name = wrappedRootName s.counter ∧
    (asAggregateVeloxMemoryPool s L).2.counter = (s.counter + 1) % uint32Mod ∧
    (reserveThroughWrapped p bytes s).balances p.boundLedger =
      s.balances p.boundLedger + bytes ∧
    (k ≠ p.boundLedger →
      (reserveThroughWrapped p bytes s).balances k = s.balances k) := by
  refine ⟨fun hne heq => ?_, rfl, rfl, rfl, by simp [reserveThroughWrapped],
    fun hk => by simp [reserveThroughWrapped, hk]⟩
  apply hne
  have h2 := wrappedRootName_injective heq
  rwa [counterAfterCalls_eq, counterAfterCalls_eq] at h2

/-- Witness for C6 amended: the first two calls of a fresh process get
distinct names, and a 128-byte reservation through the pool bound to ledger
1 leaves ledger 2 at balance 0. -/
theorem wrapped_pools_distinct_names_and_isolated_ledgers_witness :
    wrappedRootName (counterAfterCalls 0) ≠
      wrappedRootName (counterAfterCalls 1) ∧
    (reserveThroughWrapped (asAggregateVeloxMemoryPool wrapState0 1).1
      128 wrapState0).balances 2 = 0 := by
  refine ⟨(wrapped_pools_distinct_names_and_isolated_ledgers 0 1 wrapState0 1
    (asAggregateVeloxMemoryPool wrapState0 1).1 128 2).1 (by decide), ?_⟩
  exact (wrapped_pools_distinct_names_and_isolated_ledgers 0 1 wrapState0 1
    (asAggregateVeloxMemoryPool wrapState0 1).1 128 2).2.2.2.2.2 (by decide)

/-- C7: the kind guard fails fast: invoked on a node whose kind is not
kAggregate, the guarded operation errors immediately with a message naming
both the attempted operation and the node (and never returns ok, so it
never silently no-ops); on an aggregate node the check passes and the
operation proceeds. -/
theorem kind_gating_fails_fast (kind : PoolKind) (opName poolToStr : String) :
    (kind ≠ PoolKind.kAggregate →
      checkPoolManagementOp kind opName poolToStr =
        Except.error ("Memory pool " ++ opName ++
          " operation is only allowed on aggregation memory pool: " ++
          poolToStr) ∧
      ∀ u, checkPoolManagementOp kind opName poolToStr ≠ Except.ok u) ∧
    (kind = PoolKind.kAggregate →
      checkPoolManagementOp kind opName poolToStr = Except.ok ()) := by
  constructor
  · intro h
    simp [checkPoolManagementOp, h]
  · intro h
    simp [checkPoolManagementOp, h]

/-- Witness for C7: on a leaf node the guard errors with the message naming
the operation and the node; on an aggregate node it passes. -/
theorem kind_gating_fails_fast_witness :
    checkPoolManagementOp PoolKind.kLeaf "addAggregateChild" "leaf_pool" =
      Except.error ("Memory pool " ++ "addAggregateChild" ++
        " operation is only allowed on aggregation memory pool: " ++
        "leaf_pool") ∧
    checkPoolManagementOp PoolKind.kAggregate "addAggregateChild" "agg_pool" =
      Except.ok () := by
  exact ⟨((kind_gating_fails_fast PoolKind.kLeaf "addAggregateChild"
      "leaf_pool").1 (by decide)).1,
    (kind_gating_fails_fast PoolKind.kAggregate "addAggregateChild"
      "agg_pool").2 rfl⟩

/-- C8: a child generated under a node inherits the parent alignment,
usage-tracking flag and leak-check flag, and when the parent holds a shared
allocation backend the child is bound to the very same instance, keeping its
own shared-ownership reference to it (so the instance stays alive as long as
any holder remains). -/
theorem gen_child_inherits_config_and_backend
    (parent : VeloxMemoryPool) (childName : String) (kind : PoolKind)
    (threadSafe : Bool) :
    (genChild parent childName kind threadSafe).alignment = parent.alignment ∧
    (genChild parent childName kind threadSafe).trackUsage =
      parent.trackUsage ∧
    (genChild parent childName kind threadSafe).checkUsageLeak =
      parent.checkUsageLeak ∧
    (∀ a, parent.sharedAlloc = some a →
      (genChild parent childName kind threadSafe).allocator = some a ∧
      (genChild parent childName kind threadSafe).sharedAlloc = some a) ∧
    (parent.sharedAlloc = none →
      (genChild parent childName kind threadSafe).sharedAlloc = none) := by
  cases hp : parent.sharedAlloc <;>
    simp [genChild, setAllocatorShared, hp]

/-- Witness for C8: the child of the concrete parent holding shared
allocator 7 references exactly instance 7 and inherits alignment 64. -/
theorem gen_child_inherits_config_and_backend_witness :
    (genChild parentWithShared "child" PoolKind.kLeaf true).alignment = 64 ∧
    (genChild parentWithShared "child" PoolKind.kLeaf true).sharedAlloc =
      some 7 := by
  refine ⟨(gen_child_inherits_config_and_backend parentWithShared "child"
    PoolKind.kLeaf true).1, ?_⟩
  exact ((gen_child_inherits_config_and_backend parentWithShared "child"
    PoolKind.kLeaf true).2.2.2.1 7 rfl).2

/-- C9: defaultLeafVeloxMemoryPool is idempotent: the state after the first
call is a fixpoint and every later call returns exactly the same handle with
no state change; the leaf child (named default_leaf) is created only by a
first call, advancing the creation count exactly once; on a state already
holding the pool the call returns that same handle and the state unchanged. -/
theorem default_leaf_pool_idempotent (s : ProcessState) :
    (defaultLeafVeloxMemoryPool ((defaultLeafVeloxMemoryPool s).2)).1 =
      (defaultLeafVeloxMemoryPool s).1 ∧
    (defaultLeafVeloxMemoryPool ((defaultLeafVeloxMemoryPool s).2)).2 =
      (defaultLeafVeloxMemoryPool s).2 ∧
    (s.defaultPool = none →
      ((defaultLeafVeloxMemoryPool s).2).leafChildrenCreated =
        s.leafChildrenCreated + 1 ∧
      (defaultLeafVeloxMemoryPool s).1.name = "default_leaf" ∧
      (defaultLeafVeloxMemoryPool s).1.kind = PoolKind.kLeaf) ∧
    (∀ h, s.defaultPool = some h → defaultLeafVeloxMemoryPool s = (h, s)) := by
  cases hs : s.defaultPool <;>
    simp [defaultLeafVeloxMemoryPool, hs]

/-- Witness for C9: from a fresh process state the first call creates the
leaf exactly once, named default_leaf. -/
theorem default_leaf_pool_idempotent_witness :
    ((defaultLeafVeloxMemoryPool procState0).2).leafChildrenCreated = 0 + 1 ∧
    (defaultLeafVeloxMemoryPool procState0).1.name = "default_leaf" := by
  exact ⟨((default_leaf_pool_idempotent procState0).2.2.1 rfl).1,
    ((default_leaf_pool_idempotent procState0).2.2.1 rfl).2.1⟩

/-- C10: the wrapped reservation callback invokes the original callback only
after the corresponding ledger operation (reserveBytes when preAlloc is
true, unreserveBytes when rolling back) has succeeded, passing the same byte
count and the same flag unchanged; when the ledger operation fails the
callback faults and the original callback is never invoked. -/
theorem wrapped_cb_ledger_before_original
    (g : GlutenMemoryAllocator) (bytes : Int) (preAlloc : Bool) :
    ((if preAlloc then g.reserveOk bytes else g.unreserveOk bytes) = false →
      (wrappedReservationCB g bytes preAlloc).fault = true ∧
      ∀ b p, Ev.origCB b p ∉ (wrappedReservationCB g bytes preAlloc).events) ∧
    ((if preAlloc then g.reserveOk bytes else g.unreserveOk bytes) = true →
      (wrappedReservationCB g bytes preAlloc).fault = false ∧
      (wrappedReservationCB g bytes preAlloc).events =
        [(if preAlloc then Ev.ledgerReserve bytes true
          else Ev.ledgerUnreserve bytes true),
         Ev.origCB bytes preAlloc]) := by
  cases preAlloc <;>
    constructor <;> intro h <;>
      simp_all [wrappedReservationCB, GlutenMemoryAllocator.reserveBytes,
        GlutenMemoryAllocator.unreserveBytes]

/-- Witness for C10: on the denying ledger the callback faults before the
original callback; on the accepting ledger the ledger event precedes the
original callback invocation with the same bytes and flag. -/
theorem wrapped_cb_ledger_before_original_witness :
    (wrappedReservationCB ledgerDenyAll 5 true).fault = true ∧
    (wrappedReservationCB ledgerAcceptAll 5 true).events =
      [Ev.ledgerReserve 5 true, Ev.origCB 5 true] := by
  exact ⟨((wrapped_cb_ledger_before_original ledgerDenyAll 5 true).1 rfl).1,
    ((wrapped_cb_ledger_before_original ledgerAcceptAll 5 true).2 rfl).2⟩

end GlutenSpec
